import Mathlib

/-!
Shallow embedding of the Ably Terraform generator (src/index.ts) and proofs
about its specification claims.

Conventions:
- TypeScript strings are modelled as Lean `String` (a wrapper around
  `List Char`); template-literal interpolation becomes `++` of the literal
  chunks with the interpolated parts.
- The emitters are transcribed chunk-for-chunk from the template literals in
  `src/index.ts`, including their exact whitespace.
- `console.warn` in the rule emitter is modelled by returning the warning
  messages alongside the produced text (a `String × List String` pair).
- JavaScript falsy-coalescing (`x || d`) on optional fields is modelled by
  explicit helpers on `Option` that also treat the falsy values `""` and `0`
  as absent, exactly as `||` does.
-/

namespace AblyTfGen

/-- Model of the per-character effect of JavaScript `toLowerCase` as used by
`sanitizeName` (src/index.ts line 118). Only the ASCII range matters here:
any character that such lowercasing could involve outside `A`-`Z` is not in
`[a-z0-9_]` either before or after lowering, so it is replaced by the next
step regardless; the claims are insensitive to the difference. -/
def toLowerChar (c : Char) : Char :=
  if 65 ≤ c.toNat ∧ c.toNat ≤ 90 then Char.ofNat (c.toNat + 32) else c

/-- Membership of a character in the safe alphabet `[a-z0-9_]` of the regex
in `sanitizeName` (src/index.ts line 118). -/
def isSafeChar (c : Char) : Bool :=
  (decide (97 ≤ c.toNat) && decide (c.toNat ≤ 122)) ||
    (decide (48 ≤ c.toNat) && decide (c.toNat ≤ 57)) || decide (c.toNat = 95)

/-- The per-character effect of `.replace(/[^a-z0-9_]/g, "_")`
(src/index.ts line 118). -/
def replaceChar (c : Char) : Char :=
  if isSafeChar c then c else '_'

/-- Embedding of `sanitizeName` (src/index.ts lines 117-119): lowercase the
whole string, then replace every character outside `[a-z0-9_]` with an
underscore. -/
def sanitizeName (s : String) : String :=
  ⟨(s.data.map toLowerChar).map replaceChar⟩

/-- Embedding of the quote-escaping routine `.replace(/"/g, "\\\"")` applied
to interpolated names (src/index.ts lines 125, 137, 172, 231). -/
def escapeQuotes (s : String) : String :=
  ⟨(s.data.map (fun c => if c = '"' then ['\\', '"'] else [c])).flatten⟩

/-- Rendering of a JavaScript boolean into a template literal. -/
def boolStr (b : Bool) : String :=
  if b then "true" else "false"

/-- Model of `x || false` on an optional boolean field. -/
def falsyBool (o : Option Bool) : Bool :=
  o.getD false

/-- Model of `x || d` on an optional string field: an absent or empty
(falsy) string yields the default. -/
def falsyStrOr (d : String) (o : Option String) : String :=
  match o with
  | none => d
  | some s => if s = "" then d else s

/-- Model of `x || "null"` on an optional numeric field (`messageTtl`):
absent or `0` (both falsy in JavaScript) render as the bare word `null`. -/
def falsyNumOrNull (o : Option Nat) : String :=
  match o with
  | none => "null"
  | some n => if n = 0 then "null" else toString n

/-- Model of `JSON.stringify` on a string value: quote it, escaping embedded
quotes and backslashes (control-character escapes never arise in this
development). -/
def jsonStr (s : String) : String :=
  ⟨('"' :: (s.data.map (fun c =>
      if c = '"' then ['\\', '"']
      else if c = '\\' then ['\\', '\\'] else [c])).flatten) ++ ['"']⟩

/-- Model of `JSON.stringify` on an array of strings
(`brokers`, `tlsTrustCerts`). -/
def jsonStrArray (l : List String) : String :=
  "[" ++ String.intercalate "," (l.map jsonStr) ++ "]"

/-- Model of `JSON.stringify` on a string-to-string record (`headers`,
which the source threads through untyped). -/
def jsonStrMap (m : List (String × String)) : String :=
  "\x7b" ++ String.intercalate "," (m.map fun p => jsonStr p.1 ++ ":" ++ jsonStr p.2) ++ "\x7d"

/-- Model of `JSON.stringify` on a `Record<string, string[]>`
(the key `capability` field, src/index.ts line 133). -/
def jsonCapability (m : List (String × List String)) : String :=
  "\x7b" ++ String.intercalate "," (m.map fun p => jsonStr p.1 ++ ":" ++ jsonStrArray p.2) ++ "\x7d"

/-- Substring search helper: does the character list contain `pat` as a
contiguous infix? -/
def hasSubAux (pat : List Char) : List Char → Bool
  | [] => pat.isEmpty
  | c :: cs => pat.isPrefixOf (c :: cs) || hasSubAux pat cs

/-- Does `s` contain `pat` as a contiguous substring? -/
def containsStr (s pat : String) : Bool :=
  hasSubAux pat.data s.data

/-- Entity `App` (src/index.ts lines 8-11). -/
structure App where
  id : String
  name : String

/-- Entity `Key` (src/index.ts lines 13-18); the untyped
`capability : Record<string, string[]>` is modelled as an association list. -/
structure Key where
  id : String
  name : String
  key : String
  capability : List (String × List String)

/-- Entity `Namespace` (src/index.ts lines 20-30); `T | null` fields are
modelled as `Option T`. -/
structure Namespace where
  batchingPolicy : Option String
  batchingInterval : Option String
  batchingEnabled : Option Bool
  id : String
  authenticated : Bool
  persisted : Bool
  persistLast : Bool
  pushEnabled : Bool
  tlsOnly : Bool

/-- Entity `Queue` (src/index.ts lines 32-38). -/
structure Queue where
  id : String
  name : String
  ttl : Nat
  maxLength : Nat
  region : String

/-- The `source` sub-record of a rule (src/index.ts lines 45-48). -/
structure RuleSource where
  channelFilter : String
  type : String

/-- The untyped `target.auth.sasl` record read by the kafka projector
(src/index.ts lines 355-360). -/
structure SaslConfig where
  mechanism : String
  username : String
  password : String

/-- The untyped `target.auth` record read by the kafka projector. -/
structure AuthConfig where
  sasl : SaslConfig

/-- The untyped `target.authentication` record: the AWS projectors read
`authenticationMode` and the optional credential fields, the pulsar
projector reads `mode` and `token`; the source keeps all of these in one
untyped object. -/
structure TargetAuth where
  authenticationMode : String
  accessKeyId : Option String
  secretAccessKey : Option String
  assumeRoleArn : Option String
  mode : String
  token : String

/-- The untyped `target : any` of a rule: one record carrying every field
that any of the eleven projectors reads; fields the source coalesces with
`||` are `Option`s. -/
structure Target where
  url : String
  format : String
  headers : List (String × String)
  signingKeyId : Option String
  enveloped : Option Bool
  queueId : String
  routingKey : String
  mandatoryRoute : Bool
  persistentMessages : Bool
  messageTtl : Option Nat
  region : String
  streamName : String
  partitionKey : String
  functionName : String
  awsAccountId : String
  queueName : String
  azureAppId : String
  projectId : String
  brokers : List String
  topic : String
  serviceUrl : String
  tlsTrustCerts : List String
  authentication : TargetAuth
  auth : AuthConfig

/-- Entity `Rule` (src/index.ts lines 40-50). -/
structure Rule where
  id : String
  status : String
  requestMode : String
  ruleType : String
  source : RuleSource
  target : Target

/-- The composed block identifier `sanitize(appName) + "_" + sanitize(x)`
used by every child-resource emitter. -/
def composedBlockId (appName x : String) : String :=
  sanitizeName appName ++ "_" ++ sanitizeName x

/-- Block identifier of a key block (src/index.ts line 135): composed from
the key NAME. -/
def keyBlockId (appName : String) (k : Key) : String :=
  composedBlockId appName k.name

/-- Block identifier of a queue block (src/index.ts line 170): composed from
the queue NAME. -/
def queueBlockId (appName : String) (q : Queue) : String :=
  composedBlockId appName q.name

/-- Block identifier of a namespace block (src/index.ts lines 148, 151):
composed from the namespace ID. -/
def namespaceBlockId (appName : String) (n : Namespace) : String :=
  composedBlockId appName n.id

/-- Block identifier of a rule block (src/index.ts lines 181, 225): composed
from the rule ID. -/
def ruleBlockId (appName : String) (r : Rule) : String :=
  composedBlockId appName r.id

/-- Embedding of `generateAppTerraform` (src/index.ts lines 121-128). -/
def generateAppTerraform (app : App) : String :=
  "\nresource \"ably_app\" \"" ++ sanitizeName app.name ++ "\" \x7b\n  name = \"" ++
    escapeQuotes app.name ++ "\"\n\x7d\n"

/-- Embedding of `generateKeyTerraform` (src/index.ts lines 130-142). -/
def generateKeyTerraform (key : Key) (appName : String) : String :=
  "\nresource \"ably_api_key\" \"" ++ keyBlockId appName key ++
    "\" \x7b\n  app_id           = ably_app." ++ sanitizeName appName ++
    ".id\n  name             = \"" ++ escapeQuotes key.name ++
    "\"\n  capability       = jsonencode(" ++ jsonCapability key.capability ++
    ")\n  revocable_tokens = false\n\x7d\n"

/-- Embedding of `generateNamespaceTerraform` (src/index.ts lines 144-164). -/
def generateNamespaceTerraform (ns : Namespace) (appName : String) : String :=
  "\nresource \"ably_namespace\" \"" ++ namespaceBlockId appName ns ++
    "\" \x7b\n  app_id            = ably_app." ++ sanitizeName appName ++
    ".id\n  id                = \"" ++ ns.id ++
    "\"\n  authenticated     = " ++ boolStr ns.authenticated ++
    "\n  persisted         = " ++ boolStr ns.persisted ++
    "\n  persist_last      = " ++ boolStr ns.persistLast ++
    "\n  push_enabled      = " ++ boolStr ns.pushEnabled ++
    "\n  tls_only          = " ++ boolStr ns.tlsOnly ++
    "\n  batching_enabled  = " ++ boolStr (falsyBool ns.batchingEnabled) ++
    "\n  batching_interval = " ++ falsyStrOr "null" ns.batchingInterval ++
    "\n  batching_policy   = \"" ++ falsyStrOr "" ns.batchingPolicy ++
    "\"\n\x7d\n"

/-- Embedding of `generateQueueTerraform` (src/index.ts lines 166-178). -/
def generateQueueTerraform (queue : Queue) (appName : String) : String :=
  "\nresource \"ably_queue\" \"" ++ queueBlockId appName queue ++
    "\" \x7b\n  app_id     = ably_app." ++ sanitizeName appName ++
    ".id\n  name       = \"" ++ escapeQuotes queue.name ++
    "\"\n  ttl        = " ++ toString queue.ttl ++
    "\n  max_length = " ++ toString queue.maxLength ++
    "\n  region     = \"" ++ queue.region ++
    "\"\n\x7d\n"

/-- Embedding of `generateHttpRuleFields` (src/index.ts lines 239-248). -/
def generateHttpRuleFields (target : Target) : String :=
  "\n  target \x7b\n    url             = \"" ++ target.url ++
    "\"\n    format          = \"" ++ target.format ++
    "\"\n    headers         = " ++ jsonStrMap target.headers ++
    "\n    signing_key_id  = \"" ++ falsyStrOr "" target.signingKeyId ++
    "\"\n    enveloped       = " ++ boolStr (falsyBool target.enveloped) ++
    "\n  \x7d"

/-- Embedding of `generateAmqpRuleFields` (src/index.ts lines 250-257). -/
def generateAmqpRuleFields (target : Target) : String :=
  "\n  target \x7b\n    queue_id  = \"" ++ target.queueId ++
    "\"\n    format    = \"" ++ target.format ++
    "\"\n    enveloped = " ++ boolStr (falsyBool target.enveloped) ++
    "\n  \x7d"

/-- Embedding of `generateAmqpExternalRuleFields` (src/index.ts lines 259-271). -/
def generateAmqpExternalRuleFields (target : Target) : String :=
  "\n  target \x7b\n    url                = \"" ++ target.url ++
    "\"\n    routing_key        = \"" ++ target.routingKey ++
    "\"\n    mandatory_route    = " ++ boolStr target.mandatoryRoute ++
    "\n    persistent_messages = " ++ boolStr target.persistentMessages ++
    "\n    message_ttl        = " ++ falsyNumOrNull target.messageTtl ++
    "\n    format             = \"" ++ target.format ++
    "\"\n    headers            = " ++ jsonStrMap target.headers ++
    "\n    enveloped          = " ++ boolStr (falsyBool target.enveloped) ++
    "\n  \x7d"

/-- The `authentication` sub-block shared verbatim by the three AWS
projectors (src/index.ts lines 281-286, 297-302, 314-319). -/
def awsAuthenticationBlock (a : TargetAuth) : String :=
  "authentication \x7b\n      authentication_mode = \"" ++ a.authenticationMode ++
    "\"\n      access_key_id       = \"" ++ falsyStrOr "" a.accessKeyId ++
    "\"\n      secret_access_key   = \"" ++ falsyStrOr "" a.secretAccessKey ++
    "\"\n      assume_role_arn     = \"" ++ falsyStrOr "" a.assumeRoleArn ++
    "\"\n    \x7d"

/-- Embedding of `generateAwsKinesisRuleFields` (src/index.ts lines 273-288). -/
def generateAwsKinesisRuleFields (target : Target) : String :=
  "\n  target \x7b\n    region        = \"" ++ target.region ++
    "\"\n    stream_name   = \"" ++ target.streamName ++
    "\"\n    partition_key = \"" ++ target.partitionKey ++
    "\"\n    format        = \"" ++ target.format ++
    "\"\n    enveloped     = " ++ boolStr (falsyBool target.enveloped) ++
    "\n    " ++ awsAuthenticationBlock target.authentication ++
    "\n  \x7d"

/-- Embedding of `generateAwsLambdaRuleFields` (src/index.ts lines 290-304). -/
def generateAwsLambdaRuleFields (target : Target) : String :=
  "\n  target \x7b\n    region        = \"" ++ target.region ++
    "\"\n    function_name = \"" ++ target.functionName ++
    "\"\n    format        = \"" ++ target.format ++
    "\"\n    enveloped     = " ++ boolStr (falsyBool target.enveloped) ++
    "\n    " ++ awsAuthenticationBlock target.authentication ++
    "\n  \x7d"

/-- Embedding of `generateAwsSqsRuleFields` (src/index.ts lines 306-321). -/
def generateAwsSqsRuleFields (target : Target) : String :=
  "\n  target \x7b\n    region          = \"" ++ target.region ++
    "\"\n    aws_account_id  = \"" ++ target.awsAccountId ++
    "\"\n    queue_name      = \"" ++ target.queueName ++
    "\"\n    format          = \"" ++ target.format ++
    "\"\n    enveloped       = " ++ boolStr (falsyBool target.enveloped) ++
    "\n    " ++ awsAuthenticationBlock target.authentication ++
    "\n  \x7d"

/-- Embedding of `generateAzureFunctionRuleFields` (src/index.ts lines 323-333). -/
def generateAzureFunctionRuleFields (target : Target) : String :=
  "\n  target \x7b\n    azure_app_id   = \"" ++ target.azureAppId ++
    "\"\n    function_name  = \"" ++ target.functionName ++
    "\"\n    format         = \"" ++ target.format ++
    "\"\n    headers        = " ++ jsonStrMap target.headers ++
    "\n    signing_key_id = \"" ++ falsyStrOr "" target.signingKeyId ++
    "\"\n    enveloped      = " ++ boolStr (falsyBool target.enveloped) ++
    "\n  \x7d"

/-- Embedding of `generateGoogleFunctionRuleFields` (src/index.ts lines 335-346). -/
def generateGoogleFunctionRuleFields (target : Target) : String :=
  "\n  target \x7b\n    region        = \"" ++ target.region ++
    "\"\n    project_id    = \"" ++ target.projectId ++
    "\"\n    function_name = \"" ++ target.functionName ++
    "\"\n    format        = \"" ++ target.format ++
    "\"\n    headers       = " ++ jsonStrMap target.headers ++
    "\n    signing_key_id = \"" ++ falsyStrOr "" target.signingKeyId ++
    "\"\n    enveloped     = " ++ boolStr (falsyBool target.enveloped) ++
    "\n  \x7d"

/-- Embedding of `generateKafkaRuleFields` (src/index.ts lines 348-363). -/
def generateKafkaRuleFields (target : Target) : String :=
  "\n  target \x7b\n    brokers     = " ++ jsonStrArray target.brokers ++
    "\n    routing_key = \"" ++ target.routingKey ++
    "\"\n    format      = \"" ++ target.format ++
    "\"\n    enveloped   = " ++ boolStr (falsyBool target.enveloped) ++
    "\n    auth \x7b\n      sasl \x7b\n        mechanism = \"" ++ target.auth.sasl.mechanism ++
    "\"\n        username  = \"" ++ target.auth.sasl.username ++
    "\"\n        password  = \"" ++ target.auth.sasl.password ++
    "\"\n      \x7d\n    \x7d\n  \x7d"

/-- Embedding of `generatePulsarRuleFields` (src/index.ts lines 365-379). -/
def generatePulsarRuleFields (target : Target) : String :=
  "\n  target \x7b\n    routing_key      = \"" ++ target.routingKey ++
    "\"\n    topic            = \"" ++ target.topic ++
    "\"\n    service_url      = \"" ++ target.serviceUrl ++
    "\"\n    tls_trust_certs  = " ++ jsonStrArray target.tlsTrustCerts ++
    "\n    format           = \"" ++ target.format ++
    "\"\n    enveloped        = " ++ boolStr (falsyBool target.enveloped) ++
    "\n    authentication \x7b\n      mode  = \"" ++ target.authentication.mode ++
    "\"\n      token = \"" ++ target.authentication.token ++
    "\"\n    \x7d\n  \x7d"

/-- Embedding of `generateZapierRuleFields` (src/index.ts lines 381-388). -/
def generateZapierRuleFields (target : Target) : String :=
  "\n  target \x7b\n    url            = \"" ++ target.url ++
    "\"\n    headers        = " ++ jsonStrMap target.headers ++
    "\n    signing_key_id = \"" ++ falsyStrOr "" target.signingKeyId ++
    "\"\n  \x7d"

/-- The eleven `ruleType` values handled by the `switch` in
`generateRuleTerraform` (src/index.ts lines 185-222). -/
def knownRuleTypes : List String :=
  ["http", "amqp", "amqp/external", "aws/kinesis", "aws/lambda", "aws/sqs",
    "azure/function", "google/function", "kafka", "pulsar", "zapier"]

/-- The `switch (rule.ruleType)` of `generateRuleTerraform` (src/index.ts
lines 185-222): `some` of the projected fields for a known variant, `none`
for the `default` branch. -/
def ruleSpecificFieldsFor (rule : Rule) : Option String :=
  if rule.ruleType = "http" then some (generateHttpRuleFields rule.target)
  else if rule.ruleType = "amqp" then some (generateAmqpRuleFields rule.target)
  else if rule.ruleType = "amqp/external" then some (generateAmqpExternalRuleFields rule.target)
  else if rule.ruleType = "aws/kinesis" then some (generateAwsKinesisRuleFields rule.target)
  else if rule.ruleType = "aws/lambda" then some (generateAwsLambdaRuleFields rule.target)
  else if rule.ruleType = "aws/sqs" then some (generateAwsSqsRuleFields rule.target)
  else if rule.ruleType = "azure/function" then some (generateAzureFunctionRuleFields rule.target)
  else if rule.ruleType = "google/function" then some (generateGoogleFunctionRuleFields rule.target)
  else if rule.ruleType = "kafka" then some (generateKafkaRuleFields rule.target)
  else if rule.ruleType = "pulsar" then some (generatePulsarRuleFields rule.target)
  else if rule.ruleType = "zapier" then some (generateZapierRuleFields rule.target)
  else none

/-- Embedding of `generateRuleTerraform` (src/index.ts lines 180-237). The
first component is the returned block text, the second the messages passed
to `console.warn` (the `default` branch warns and returns the empty
string). -/
def generateRuleTerraform (rule : Rule) (appName : String) : String × List String :=
  match ruleSpecificFieldsFor rule with
  | none => ("", ["Unsupported rule type: " ++ rule.ruleType])
  | some ruleSpecificFields =>
    ("\nresource \"ably_rule\" \"" ++ ruleBlockId appName rule ++
      "\" \x7b\n  app_id       = ably_app." ++ sanitizeName appName ++
      ".id\n  status       = \"" ++ rule.status ++
      "\"\n  rule_type    = \"" ++ rule.ruleType ++
      "\"\n  request_mode = \"" ++ rule.requestMode ++
      "\"\n  source \x7b\n    channel_filter = \"" ++ escapeQuotes rule.source.channelFilter ++
      "\"\n    type           = \"" ++ rule.source.type ++
      "\"\n  \x7d\n  " ++ ruleSpecificFields ++ "\n\x7d\n", [])

/-- Embedding of `generateTerraformForApp` (src/index.ts lines 390-414) with
the four fetched child-resource lists passed in (the fetchers are external
collaborators); `terraform += ...` inside each `forEach` becomes a left
fold. -/
def generateTerraformForApp (app : App) (keys : List Key) (namespaces : List Namespace)
    (queues : List Queue) (rules : List Rule) : String :=
  let t0 := generateAppTerraform app
  let t1 := keys.foldl (fun acc k => acc ++ generateKeyTerraform k app.name) t0
  let t2 := namespaces.foldl (fun acc n => acc ++ generateNamespaceTerraform n app.name) t1
  let t3 := queues.foldl (fun acc q => acc ++ generateQueueTerraform q app.name) t2
  rules.foldl (fun acc r => acc ++ (generateRuleTerraform r app.name).1) t3

/-- The output file name derived in `run` (src/index.ts line 447). -/
def terraformFileName (app : App) : String :=
  sanitizeName app.name ++ ".tf"

/-- Authentication record of the fully-populated target. -/
def tFullAuth : TargetAuth :=
  { authenticationMode := "credentials", accessKeyId := some "AK",
    secretAccessKey := some "SK", assumeRoleArn := some "arn",
    mode := "jwt", token := "tok" }

/-- Authentication record with every optional field absent. -/
def tDefaultsAuth : TargetAuth :=
  { authenticationMode := "assumeRole", accessKeyId := none,
    secretAccessKey := none, assumeRoleArn := none, mode := "none", token := "" }

/-- SASL record of the fully-populated target. -/
def tFullSasl : AuthConfig :=
  { sasl := { mechanism := "plain", username := "u", password := "p" } }

/-- A fully-populated rule target: every optional field present and truthy. -/
def tFull : Target :=
  { url := "https://e.x/h", format := "json", headers := [("h", "v")],
    signingKeyId := some "sk", enveloped := some true,
    queueId := "q1", routingKey := "rk", mandatoryRoute := true,
    persistentMessages := true, messageTtl := some 60,
    region := "us-east-1", streamName := "st", partitionKey := "pk",
    functionName := "fn", awsAccountId := "acct", queueName := "qn",
    azureAppId := "az", projectId := "pj", brokers := ["b1:9092"],
    topic := "tp", serviceUrl := "pulsar://s", tlsTrustCerts := ["c1"],
    authentication := tFullAuth, auth := tFullSasl }

/-- The same target with every optional field absent, to exercise the
documented defaults. -/
def tDefaults : Target :=
  { tFull with
      signingKeyId := none, enveloped := none, messageTtl := none,
      authentication := tDefaultsAuth }

/-! Basic facts about `String` append, used throughout. -/

lemma str_data_inj {s t : String} (h : s.data = t.data) : s = t :=
  String.ext h

lemma str_data_append (s t : String) : (s ++ t).data = s.data ++ t.data := by
  cases s; cases t; rfl

lemma str_empty_append (s : String) : "" ++ s = s := by
  cases s; rfl

lemma str_append_empty (s : String) : s ++ "" = s := by
  cases s with
  | mk l => show String.mk (l ++ []) = String.mk l; rw [List.append_nil]

lemma str_append_assoc (a b c : String) : (a ++ b) ++ c = a ++ (b ++ c) := by
  cases a with
  | mk x =>
    cases b with
    | mk y =>
      cases c with
      | mk z =>
        show String.mk ((x ++ y) ++ z) = String.mk (x ++ (y ++ z))
        rw [List.append_assoc]

/-- Concatenation of a list of strings in order. -/
def concatAll : List String → String
  | [] => ""
  | s :: ss => s ++ concatAll ss

lemma concatAll_append (a b : List String) :
    concatAll (a ++ b) = concatAll a ++ concatAll b := by
  induction a with
  | nil => simp [concatAll, str_empty_append]
  | cons x xs ih => simp [concatAll, ih, str_append_assoc]

lemma foldl_append_concatAll (f : α → String) (l : List α) :
    ∀ init : String,
      l.foldl (fun acc x => acc ++ f x) init = init ++ concatAll (l.map f) := by
  induction l with
  | nil => intro init; simp [concatAll, str_append_empty]
  | cons x xs ih =>
    intro init
    simp only [List.foldl_cons, List.map_cons, concatAll]
    rw [ih, str_append_assoc]

/-! Facts about the sanitizer. -/

lemma isSafeChar_replaceChar (c : Char) : isSafeChar (replaceChar c) = true := by
  unfold replaceChar
  split
  · assumption
  · decide

lemma replaceChar_of_safe {c : Char} (h : isSafeChar c = true) : replaceChar c = c := by
  simp [replaceChar, h]

lemma toLowerChar_of_safe {c : Char} (h : isSafeChar c = true) : toLowerChar c = c := by
  simp only [isSafeChar, Bool.or_eq_true, Bool.and_eq_true, decide_eq_true_eq] at h
  unfold toLowerChar
  rw [if_neg]
  omega

/-- C5: `sanitizeName` is a total function (defined on every `String`,
including the empty one) that lowercases its input and then replaces every
character outside `[a-z0-9_]` with an underscore; consequently every
character of its output lies in `[a-z0-9_]`, and the empty input yields the
empty identifier. -/
theorem sanitizeName_total_safe :
    ∀ s : String,
      ((sanitizeName s).data.all isSafeChar = true) ∧ sanitizeName "" = "" := by
  intro s
  refine ⟨?_, rfl⟩
  rw [List.all_eq_true]
  intro c hc
  simp only [sanitizeName, List.map_map, List.mem_map] at hc
  obtain ⟨d, _, rfl⟩ := hc
  exact isSafeChar_replaceChar (toLowerChar d)

/-- C9: `sanitizeName` is idempotent — sanitizing an already-sanitized
identifier never changes it. -/
theorem sanitizeName_idempotent :
    ∀ s : String, sanitizeName (sanitizeName s) = sanitizeName s := by
  intro s
  have hchar : ∀ c : Char,
      replaceChar (toLowerChar (replaceChar (toLowerChar c))) =
        replaceChar (toLowerChar c) := by
    intro c
    have h := isSafeChar_replaceChar (toLowerChar c)
    rw [toLowerChar_of_safe h, replaceChar_of_safe h]
  have hlist : ∀ l : List Char,
      List.map replaceChar (List.map toLowerChar
        (List.map replaceChar (List.map toLowerChar l))) =
        List.map replaceChar (List.map toLowerChar l) := by
    intro l
    induction l with
    | nil => rfl
    | cons c cs ih => simp only [List.map_cons]; rw [hchar, ih]
  cases s with
  | mk l => exact congrArg String.mk (hlist l)

/-- C2 counterexample: two keys of the same application with pairwise
distinct raw names (`"a b"` and `"a-b"`) receive the SAME composed block
identifier, because both names sanitize to `a_b`; so distinct raw names do
not guarantee distinct emitted block identifiers. -/
theorem composed_ids_collide_on_distinct_raw_names :
    ("a b" : String) ≠ "a-b" ∧
      keyBlockId "app" { id := "k1", name := "a b", key := "", capability := [] } =
        keyBlockId "app" { id := "k2", name := "a-b", key := "", capability := [] } ∧
      generateKeyTerraform { id := "k1", name := "a b", key := "", capability := [] } "app" ≠
        generateKeyTerraform { id := "k2", name := "a-b", key := "", capability := [] } "app" := by
  refine ⟨by decide, by decide, by decide⟩

/-- C2 (amended): if the SANITIZED names (rather than the raw names) of two
entities of one application are distinct, then their composed block
identifiers `sanitize(appName) ++ "_" ++ sanitize(name)` are distinct; so
identifiers are pairwise distinct whenever sanitized names are. -/
theorem composed_ids_distinct_of_sanitized_distinct :
    ∀ a n₁ n₂ : String, sanitizeName n₁ ≠ sanitizeName n₂ →
      composedBlockId a n₁ ≠ composedBlockId a n₂ := by
  intro a n₁ n₂ h hcontra
  apply h
  apply str_data_inj
  have hd := congrArg String.data hcontra
  simp only [composedBlockId, str_data_append, List.append_assoc] at hd
  exact List.append_cancel_left (List.append_cancel_left hd)

/-- Witness for the amended C2 theorem at concrete inputs. -/
theorem composed_ids_distinct_of_sanitized_distinct_witness :
    composedBlockId "app" "x" ≠ composedBlockId "app" "y" :=
  composed_ids_distinct_of_sanitized_distinct "app" "x" "y" (by decide)

/-- C1: the quote-escaping routine applied to names (`escapeQuotes`) is NOT
applied to rule-target string fields: an http target whose `url` contains a
double quote is interpolated verbatim, so the emitted `url` field contains a
bare embedded quote and is not a single well-formed quoted literal, while
the app emitter does escape the same character in names. -/
theorem target_url_quote_not_escaped :
    escapeQuotes "a\"b" = "a\\\"b" ∧
      containsStr (generateHttpRuleFields { tFull with url := "a\"b" })
        "url             = \"a\"b\"" = true ∧
      containsStr (generateHttpRuleFields { tFull with url := "a\"b" }) "\\" = false ∧
      containsStr (generateQueueTerraform
          { id := "q", name := "n", ttl := 60, maxLength := 100, region := "e\"u" } "app")
        "region     = \"e\"u\"" = true ∧
      containsStr (generateAppTerraform { id := "a", name := "a\"b" })
        "name = \"a\\\"b\"" = true := by
  refine ⟨by decide, by decide, by decide, by decide, by decide⟩

/-! The rule emitter on unknown rule types, and the aggregation order. -/

lemma ruleSpecificFieldsFor_eq_none {r : Rule} (h : r.ruleType ∉ knownRuleTypes) :
    ruleSpecificFieldsFor r = none := by
  simp only [knownRuleTypes, List.mem_cons, List.mem_singleton, not_or] at h
  obtain ⟨h1, h2, h3, h4, h5, h6, h7, h8, h9, h10, h11⟩ := h
  simp [ruleSpecificFieldsFor, h1, h2, h3, h4, h5, h6, h7, h8, h9, h10, h11]

lemma rule_output_on_unknown {r : Rule} (h : r.ruleType ∉ knownRuleTypes) (a : String) :
    generateRuleTerraform r a = ("", ["Unsupported rule type: " ++ r.ruleType]) := by
  simp [generateRuleTerraform, ruleSpecificFieldsFor_eq_none h]

lemma generateTerraformForApp_eq (app : App) (ks : List Key) (ns : List Namespace)
    (qs : List Queue) (rs : List Rule) :
    generateTerraformForApp app ks ns qs rs =
      generateAppTerraform app ++
        concatAll (ks.map fun k => generateKeyTerraform k app.name) ++
        concatAll (ns.map fun n => generateNamespaceTerraform n app.name) ++
        concatAll (qs.map fun q => generateQueueTerraform q app.name) ++
        concatAll (rs.map fun r => (generateRuleTerraform r app.name).1) := by
  simp only [generateTerraformForApp, foldl_append_concatAll]

/-- A representative rule whose `ruleType` is none of the eleven known
variants. -/
def unknownRule : Rule :=
  { id := "r9", status := "enabled", requestMode := "single",
    ruleType := "unknown/custom",
    source := { channelFilter := "ch", type := "channel" }, target := tFull }

/-- A representative http rule. -/
def httpRule : Rule :=
  { unknownRule with id := "r1", ruleType := "http" }

/-- C3: a rule whose `ruleType` is not one of the eleven known variants
yields an empty block text, surfaces exactly the `Unsupported rule type`
diagnostic, and its presence anywhere in the rule list leaves the emission
of every sibling rule (and the whole per-application output) unchanged. -/
theorem unknown_ruleType_skipped :
    ∀ (r : Rule) (a : String), r.ruleType ∉ knownRuleTypes →
      (generateRuleTerraform r a).1 = "" ∧
      (generateRuleTerraform r a).2 = ["Unsupported rule type: " ++ r.ruleType] ∧
      ∀ (app : App) (ks : List Key) (ns : List Namespace) (qs : List Queue)
        (pre post : List Rule),
        generateTerraformForApp app ks ns qs (pre ++ r :: post) =
          generateTerraformForApp app ks ns qs (pre ++ post) := by
  intro r a h
  refine ⟨by rw [rule_output_on_unknown h], by rw [rule_output_on_unknown h], ?_⟩
  intro app ks ns qs pre post
  have hr : (generateRuleTerraform r app.name).1 = "" := by
    rw [rule_output_on_unknown h]
  rw [generateTerraformForApp_eq, generateTerraformForApp_eq]
  simp [List.map_append, concatAll_append, concatAll, hr, str_empty_append]

/-- Witness for C3 at a concrete `unknown/custom` rule with an http
sibling. -/
theorem unknown_ruleType_skipped_witness :
    (generateRuleTerraform unknownRule "My App").1 = "" ∧
      (generateRuleTerraform unknownRule "My App").2 =
        ["Unsupported rule type: " ++ unknownRule.ruleType] ∧
      generateTerraformForApp { id := "a1", name := "My App" } [] [] []
          [httpRule, unknownRule] =
        generateTerraformForApp { id := "a1", name := "My App" } [] [] [] [httpRule] := by
  have h := unknown_ruleType_skipped unknownRule "My App" (by decide)
  refine ⟨h.1, h.2.1, ?_⟩
  have h3 := h.2.2 { id := "a1", name := "My App" } [] [] [] [httpRule] []
  simpa using h3

/-- C6: the aggregated per-application output is exactly the application
block followed by all key blocks, all namespace blocks, all queue blocks and
all rule blocks, each child sequence concatenated in its fetched order
(append-only concatenation; no block is rewritten). -/
theorem aggregation_fixed_order :
    ∀ (app : App) (ks : List Key) (ns : List Namespace) (qs : List Queue)
      (rs : List Rule),
      generateTerraformForApp app ks ns qs rs =
        generateAppTerraform app ++
          concatAll (ks.map fun k => generateKeyTerraform k app.name) ++
          concatAll (ns.map fun n => generateNamespaceTerraform n app.name) ++
          concatAll (qs.map fun q => generateQueueTerraform q app.name) ++
          concatAll (rs.map fun r => (generateRuleTerraform r app.name).1) :=
  fun app ks ns qs rs => generateTerraformForApp_eq app ks ns qs rs

/-- C8: every resource emitter is a pure function of the entity and the
owning application name — two calls on identical inputs return identical
strings (the rule emitter additionally returns identical diagnostics), and
none of the embedded emitters reads any state besides its arguments. -/
theorem emitters_deterministic :
    ∀ (app : App) (k : Key) (n : Namespace) (q : Queue) (r : Rule) (s : String),
      generateAppTerraform app = generateAppTerraform app ∧
      generateKeyTerraform k s = generateKeyTerraform k s ∧
      generateNamespaceTerraform n s = generateNamespaceTerraform n s ∧
      generateQueueTerraform q s = generateQueueTerraform q s ∧
      generateRuleTerraform r s = generateRuleTerraform r s :=
  fun _ _ _ _ _ _ => ⟨rfl, rfl, rfl, rfl, rfl⟩

/-- The application and key of the end-to-end scenario. -/
def myApp : App := { id := "a1", name := "My App" }

/-- The key of the end-to-end scenario. -/
def prodKey : Key :=
  { id := "k1", name := "Prod Key", key := "", capability := [("chat:*", ["subscribe"])] }

/-- C7: the produced file name is `sanitize(app.name) + ".tf"`; for the
application `My App` with the single key `Prod Key` the file name is
`my_app.tf` and the output contains a key block identified
`my_app_prod_key` whose `app_id` references the application block
identified `my_app`. -/
theorem run_scenario_end_to_end :
    (∀ app : App, terraformFileName app = sanitizeName app.name ++ ".tf") ∧
      terraformFileName myApp = "my_app.tf" ∧
      containsStr (generateTerraformForApp myApp [prodKey] [] [] [])
        "resource \"ably_api_key\" \"my_app_prod_key\"" = true ∧
      containsStr (generateTerraformForApp myApp [prodKey] [] [] [])
        "app_id           = ably_app.my_app.id" = true ∧
      containsStr (generateTerraformForApp myApp [prodKey] [] [] [])
        "resource \"ably_app\" \"my_app\"" = true :=
  ⟨fun _ => rfl, by decide, by decide, by decide, by decide⟩

/-- A namespace fixture. -/
def nsFix : Namespace :=
  { batchingPolicy := none, batchingInterval := none, batchingEnabled := none,
    id := "ns0", authenticated := true, persisted := false, persistLast := false,
    pushEnabled := false, tlsOnly := false }

/-- C10: the entity field composed into a block identifier differs by kind —
key and queue identifiers are built from the entity NAME (insensitive to
everything else), namespace and rule identifiers from the entity ID; two
keys differing only in name get different identifiers, as do two rules
differing only in id. -/
theorem blockId_source_field_by_kind :
    ∀ (a : String) (k k' : Key) (q q' : Queue) (n n' : Namespace) (r r' : Rule),
      (k.name = k'.name → keyBlockId a k = keyBlockId a k') ∧
      (q.name = q'.name → queueBlockId a q = queueBlockId a q') ∧
      (n.id = n'.id → namespaceBlockId a n = namespaceBlockId a n') ∧
      (r.id = r'.id → ruleBlockId a r = ruleBlockId a r') ∧
      keyBlockId "a" { id := "i1", name := "n1", key := "", capability := [] } ≠
        keyBlockId "a" { id := "i1", name := "n2", key := "", capability := [] } ∧
      ruleBlockId "a" { unknownRule with id := "r1" } ≠
        ruleBlockId "a" { unknownRule with id := "r2" } := by
  intro a k k' q q' n n' r r'
  refine ⟨fun h => by simp [keyBlockId, h], fun h => by simp [queueBlockId, h],
    fun h => by simp [namespaceBlockId, h], fun h => by simp [ruleBlockId, h],
    by decide, by decide⟩

/-- Witness for C10 at concrete entities agreeing on the identifying field
and differing elsewhere. -/
theorem blockId_source_field_by_kind_witness :
    keyBlockId "a" { id := "x1", name := "nm", key := "", capability := [] } =
        keyBlockId "a" { id := "x2", name := "nm", key := "k", capability := [] } ∧
      queueBlockId "a" { id := "y1", name := "qm", ttl := 1, maxLength := 2, region := "r" } =
        queueBlockId "a" { id := "y2", name := "qm", ttl := 3, maxLength := 4, region := "s" } ∧
      namespaceBlockId "a" nsFix = namespaceBlockId "a" { nsFix with authenticated := false } ∧
      ruleBlockId "a" httpRule = ruleBlockId "a" { httpRule with status := "disabled" } := by
  have h := blockId_source_field_by_kind "a"
    { id := "x1", name := "nm", key := "", capability := [] }
    { id := "x2", name := "nm", key := "k", capability := [] }
    { id := "y1", name := "qm", ttl := 1, maxLength := 2, region := "r" }
    { id := "y2", name := "qm", ttl := 3, maxLength := 4, region := "s" }
    nsFix { nsFix with authenticated := false }
    httpRule { httpRule with status := "disabled" }
  exact ⟨h.1 rfl, h.2.1 rfl, h.2.2.1 rfl, h.2.2.2.1 rfl⟩

set_option maxRecDepth 16384 in
/-- C4: for each of the eleven known rule types, projecting the
fully-populated target `tFull` produces exactly the block text shown, which
contains every required field of the specification table for that variant;
projecting `tDefaults` (all optional fields absent) still emits the
documented defaults — `signing_key_id` as the empty string, `enveloped` as
`false`, `message_ttl` as `null` — and each of the three AWS variants always
emits the `authentication` sub-block with `authentication_mode` and the
three credential fields defaulting to the empty string. -/
theorem rule_variant_completeness :
    generateHttpRuleFields tFull =
      "\n  target \x7b\n    url             = \"https://e.x/h\"\n    format          = \"json\"\n    headers         = \x7b\"h\":\"v\"\x7d\n    signing_key_id  = \"sk\"\n    enveloped       = true\n  \x7d" ∧
    generateAmqpRuleFields tFull =
      "\n  target \x7b\n    queue_id  = \"q1\"\n    format    = \"json\"\n    enveloped = true\n  \x7d" ∧
    generateAmqpExternalRuleFields tFull =
      "\n  target \x7b\n    url                = \"https://e.x/h\"\n    routing_key        = \"rk\"\n    mandatory_route    = true\n    persistent_messages = true\n    message_ttl        = 60\n    format             = \"json\"\n    headers            = \x7b\"h\":\"v\"\x7d\n    enveloped          = true\n  \x7d" ∧
    generateAwsKinesisRuleFields tFull =
      "\n  target \x7b\n    region        = \"us-east-1\"\n    stream_name   = \"st\"\n    partition_key = \"pk\"\n    format        = \"json\"\n    enveloped     = true\n    authentication \x7b\n      authentication_mode = \"credentials\"\n      access_key_id       = \"AK\"\n      secret_access_key   = \"SK\"\n      assume_role_arn     = \"arn\"\n    \x7d\n  \x7d" ∧
    generateAwsLambdaRuleFields tFull =
      "\n  target \x7b\n    region        = \"us-east-1\"\n    function_name = \"fn\"\n    format        = \"json\"\n    enveloped     = true\n    authentication \x7b\n      authentication_mode = \"credentials\"\n      access_key_id       = \"AK\"\n      secret_access_key   = \"SK\"\n      assume_role_arn     = \"arn\"\n    \x7d\n  \x7d" ∧
    generateAwsSqsRuleFields tFull =
      "\n  target \x7b\n    region          = \"us-east-1\"\n    aws_account_id  = \"acct\"\n    queue_name      = \"qn\"\n    format          = \"json\"\n    enveloped       = true\n    authentication \x7b\n      authentication_mode = \"credentials\"\n      access_key_id       = \"AK\"\n      secret_access_key   = \"SK\"\n      assume_role_arn     = \"arn\"\n    \x7d\n  \x7d" ∧
    generateAzureFunctionRuleFields tFull =
      "\n  target \x7b\n    azure_app_id   = \"az\"\n    function_name  = \"fn\"\n    format         = \"json\"\n    headers        = \x7b\"h\":\"v\"\x7d\n    signing_key_id = \"sk\"\n    enveloped      = true\n  \x7d" ∧
    generateGoogleFunctionRuleFields tFull =
      "\n  target \x7b\n    region        = \"us-east-1\"\n    project_id    = \"pj\"\n    function_name = \"fn\"\n    format        = \"json\"\n    headers       = \x7b\"h\":\"v\"\x7d\n    signing_key_id = \"sk\"\n    enveloped     = true\n  \x7d" ∧
    generateKafkaRuleFields tFull =
      "\n  target \x7b\n    brokers     = [\"b1:9092\"]\n    routing_key = \"rk\"\n    format      = \"json\"\n    enveloped   = true\n    auth \x7b\n      sasl \x7b\n        mechanism = \"plain\"\n        username  = \"u\"\n        password  = \"p\"\n      \x7d\n    \x7d\n  \x7d" ∧
    generatePulsarRuleFields tFull =
      "\n  target \x7b\n    routing_key      = \"rk\"\n    topic            = \"tp\"\n    service_url      = \"pulsar://s\"\n    tls_trust_certs  = [\"c1\"]\n    format           = \"json\"\n    enveloped        = true\n    authentication \x7b\n      mode  = \"jwt\"\n      token = \"tok\"\n    \x7d\n  \x7d" ∧
    generateZapierRuleFields tFull =
      "\n  target \x7b\n    url            = \"https://e.x/h\"\n    headers        = \x7b\"h\":\"v\"\x7d\n    signing_key_id = \"sk\"\n  \x7d" ∧
    containsStr (generateHttpRuleFields tDefaults)
      "signing_key_id  = \"\"" = true ∧
    containsStr (generateHttpRuleFields tDefaults)
      "enveloped       = false" = true ∧
    containsStr (generateAmqpRuleFields tDefaults)
      "enveloped = false" = true ∧
    containsStr (generateAmqpExternalRuleFields tDefaults)
      "message_ttl        = null" = true ∧
    containsStr (generateAmqpExternalRuleFields tDefaults)
      "enveloped          = false" = true ∧
    containsStr (generateAwsKinesisRuleFields tDefaults)
      (awsAuthenticationBlock tDefaultsAuth) = true ∧
    containsStr (generateAwsLambdaRuleFields tDefaults)
      (awsAuthenticationBlock tDefaultsAuth) = true ∧
    containsStr (generateAwsSqsRuleFields tDefaults)
      (awsAuthenticationBlock tDefaultsAuth) = true ∧
    containsStr (generateAwsKinesisRuleFields tDefaults)
      "access_key_id       = \"\"" = true ∧
    containsStr (generateAwsKinesisRuleFields tDefaults)
      "secret_access_key   = \"\"" = true ∧
    containsStr (generateAwsKinesisRuleFields tDefaults)
      "assume_role_arn     = \"\"" = true ∧
    containsStr (generateAwsKinesisRuleFields tDefaults)
      "enveloped     = false" = true ∧
    containsStr (generateAwsLambdaRuleFields tDefaults)
      "enveloped     = false" = true ∧
    containsStr (generateAwsSqsRuleFields tDefaults)
      "enveloped       = false" = true ∧
    containsStr (generateAzureFunctionRuleFields tDefaults)
      "signing_key_id = \"\"" = true ∧
    containsStr (generateAzureFunctionRuleFields tDefaults)
      "enveloped      = false" = true ∧
    containsStr (generateGoogleFunctionRuleFields tDefaults)
      "signing_key_id = \"\"" = true ∧
    containsStr (generateGoogleFunctionRuleFields tDefaults)
      "enveloped     = false" = true ∧
    containsStr (generateKafkaRuleFields tDefaults)
      "enveloped   = false" = true ∧
    containsStr (generatePulsarRuleFields tDefaults)
      "enveloped        = false" = true ∧
    containsStr (generateZapierRuleFields tDefaults)
      "signing_key_id = \"\"" = true := by
  decide

end AblyTfGen
